import Mathlib

/-!
Verification of the gam-config-manager core workflow: a shallow embedding of
the two HTTP endpoint handlers (`extract_gam_config` in
`src/backend/app/api/v1/endpoints/gam.py` and `execute_remediation` in
`src/backend/app/api/v1/endpoints/remediation.py`) together with the request
schemas (`src/backend/app/schemas/remediation.py`).

The external collaborators (the GAM Command Runner `GAMService`, the
`SecurityService` analyzer/score, the database session) are not part of the
repository sources, so the handlers are parametrized over them: the Command
Runner is a function `List String → GamResult`, the scoped extraction a
function `List ConfigType → ExtractionResult`, the analyzer and score plain
functions. Database reads are modelled by association lists; database writes
are collected in the returned `savedConfigs` / `savedFindings` lists so that
persistence side effects can be reasoned about. Raising an `HTTPException`
and returning a response body are the two constructors of the outcome type;
an uncaught Python-level exception (attribute access on `None`) is a third.
-/

/-- Modelled from the spec (the enum `ConfigType` lives in
`app/db/models.py`, which is not among the given sources): the enumerated
configuration categories referenced by the given handlers, each with a
string `value`. -/
inductive ConfigType where
  | USER
  | OAUTH_TOKENS
  | OTHER
deriving DecidableEq, BEq, Repr

/-- Modelled from the spec: the string value of each enum member, used as
the key of the extracted-data mapping. -/
def ConfigType.value : ConfigType → String
  | .USER => "user"
  | .OAUTH_TOKENS => "oauth_tokens"
  | .OTHER => "other"

/-- A JSON-ish payload as returned per category by the Command Runner.
Only whether it is a Python `list` (and then its length) is ever inspected
by the handlers (`len(data) if isinstance(data, list) else 1`). -/
inductive Payload where
  | plist (items : List Payload)
  | pstr (s : String)
  | pint (n : Int)

/-- Modelled from the spec: one entry of `ExtractionResult.errors`,
`{category, error_message}` (§3, ErrorRecord). -/
structure ErrorRecord where
  category : String
  error_message : String
deriving DecidableEq, BEq, Repr

/-- The result dictionary returned by `GAMService.extract_all_configs`:
`{success, data, errors}`, with `data` keyed by the category value string. -/
structure ExtractionResult where
  success : Bool
  data : List (String × Payload)
  errors : List ErrorRecord

/-- The result dictionary of `GAMService._run_gam_command`:
`{success, data?, error?}`. -/
structure GamResult where
  success : Bool
  data : Option String := none
  error : Option String := none

/-- A finding draft as produced by
`SecurityService.analyze_configuration`: the dictionary keys read by the
two handlers when persisting and when matching for resolution. -/
structure FindingDraft where
  severity : String
  category : Option String := none
  title : String
  description : String := ""
  recommendation : String := ""
  affected_settings : Option String := none
  remediation_steps : Option (List String) := none
  remediation_actions : Option (List String) := none

/-- The `extraction_errors` JSON blob stored on a `Configuration` row by
the extract endpoint (`gam.py` line 51). -/
structure ExtractionErrors where
  errors : List ErrorRecord
  failed_types : List String

/-- A persisted `Configuration` row: the fields set by the two handlers
(`gam.py` lines 45-52, `remediation.py` lines 104-110). -/
structure Configuration where
  id : Nat := 0
  name : String
  description : String
  config_type : ConfigType
  config_data : List (String × Payload)
  is_template : Bool
  extraction_errors : Option ExtractionErrors := none

/-- A persisted `SecurityAnalysis` (finding) row: the fields read and
written by the two handlers. -/
structure SecurityAnalysis where
  id : Nat := 0
  configuration_id : Nat
  severity : String
  category : Option String := none
  title : String
  description : String := ""
  recommendation : String := ""
  affected_settings : Option String := none
  remediation_steps : Option (List String) := none
  remediation_actions : Option (List String) := none

/-- The database state visible to the remediation handler: the stored
findings and configurations, looked up by id. -/
structure DB where
  findings : List SecurityAnalysis
  configs : List Configuration

/-- `app/schemas/remediation.py`: `RemediationRequest`, with
`parameters: Optional[Dict[str, Any]] = None` modelled as an optional
association list. -/
structure RemediationRequest where
  finding_id : Nat
  action_id : String
  parameters : Option (List (String × String)) := none
  auto_rescan : Bool := true

/-- `app/schemas/remediation.py`: `RemediationResponse` with its pydantic
defaults. -/
structure RemediationResponse where
  success : Bool
  message : String
  finding_id : Nat
  action_executed : String
  gam_output : Option String := none
  new_configuration_id : Option Nat := none
  security_score_before : Option Int := none
  security_score_after : Option Int := none
  finding_resolved : Bool := false

/-- The `GAMExtractRequest` schema fields used by the extract endpoint. -/
structure GAMExtractRequest where
  config_types : List ConfigType
  save_as_template : Bool := false
  template_name : Option String := none

/-- The `GAMExtractResponse` schema fields set by the extract endpoint
(`gam.py` lines 82-90). -/
structure GAMExtractResponse where
  success : Bool
  message : String
  configuration_id : Nat
  extracted_types : List ConfigType
  total_items : Nat
  errors : Option (List ErrorRecord)
  failed_types : Option (List ConfigType)

/-- How the remediation handler may terminate: raising an `HTTPException`,
returning a `RemediationResponse`, or letting an uncaught Python exception
escape (attribute access on `None`). -/
inductive RemediationOutcome where
  | httpError (status : Nat) (detail : String)
  | response (r : RemediationResponse)
  | pyError (msg : String)

/-- Result of one run of the remediation handler: its outcome, the list of
Command Runner invocations it performed (argument lists, in order), and the
rows it persisted. -/
structure ExecResult where
  outcome : RemediationOutcome
  gamCalls : List (List String)
  savedConfigs : List Configuration
  savedFindings : List SecurityAnalysis

/-- How the extract endpoint may terminate. -/
inductive ExtractOutcome where
  | httpError (status : Nat) (detail : String)
  | response (r : GAMExtractResponse)

/-- Result of one run of the extract endpoint: its outcome and the rows it
persisted. -/
structure ExtractExecResult where
  outcome : ExtractOutcome
  savedConfigs : List Configuration
  savedFindings : List SecurityAnalysis

/-- Python string interpolation of an optional string: `None` renders as
the literal text `None`. -/
def pyShowOptStr : Option String → String
  | none => "None"
  | some s => s

/-- Python `dict.get` over the association-list model of a parameters
dictionary. -/
def dictGet (d : List (String × String)) (k : String) : Option String :=
  (d.find? (fun p => p.1 == k)).map Prod.snd

/-- Python truthiness of a `.get` result: `None` and the empty string are
falsy (the handlers test parameters with `if not x`). -/
def pyTruthy : Option String → Bool
  | none => false
  | some s => !s.isEmpty

/-- The Python idiom `xs[0] if len(xs) == 1 else ConfigType.OTHER`, used
when choosing the `config_type` of a persisted Configuration
(`gam.py` line 48, `remediation.py` line 107). -/
def singleOrOther : List ConfigType → ConfigType
  | [c] => c
  | _ => ConfigType.OTHER

/-- `len(data) if isinstance(data, list) else 1` for a single category
payload (`gam.py` line 35). -/
def payloadCount : Payload → Nat
  | .plist items => items.length
  | _ => 1

/-- The `total_items` computation of `gam.py` lines 34-37: sum of
`payloadCount` over the values of the extracted-data mapping. -/
def item_count (data : List (String × Payload)) : Nat :=
  (data.map (fun p => payloadCount p.2)).sum

/-- Rendering of the collected error records inside the 500 detail string
(`gam.py` line 30 interpolates the Python list of error dictionaries; the
exact textual format is irrelevant to the claims, only that the collected
errors appear in the detail). -/
def showErrors (es : List ErrorRecord) : String :=
  String.intercalate ", " (es.map (fun e => e.category ++ ": " ++ e.error_message))

/-- Modelled from the spec (`GAMService.extract_all_configs` lives in
`app/services/gam_service.py`, not among the given sources): per requested
category invoke the Command Runner, collect successful payloads into `data`
keyed by `category.value`, append an error record on failure, and report
`success == false` iff `data` is empty after processing all categories
(spec §4.1). `runCat` is the per-category Command Runner outcome. -/
def extractStep (runCat : ConfigType → Except String Payload)
    (acc : List (String × Payload) × List ErrorRecord) (c : ConfigType) :
    List (String × Payload) × List ErrorRecord :=
  match runCat c with
  | .ok p => (acc.1 ++ [(c.value, p)], acc.2)
  | .error e => (acc.1, acc.2 ++ [⟨c.value, e⟩])

/-- Modelled from the spec: `extract_all_configs` folds `extractStep` over
the requested categories starting from empty data/errors and reports
`success == false` iff `data` ended up empty. -/
def extract_all_configs (runCat : ConfigType → Except String Payload)
    (cats : List ConfigType) : ExtractionResult :=
  let acc := cats.foldl (extractStep runCat) ([], [])
  { success := !acc.1.isEmpty, data := acc.1, errors := acc.2 }

/-- `remediation.py` lines 90-96: which configuration types to re-extract
for the rescan, based on the action id. -/
def rescanTypes (action_id : String) : List ConfigType :=
  if action_id == "enforce_2fa" then [ConfigType.USER]
  else if action_id == "revoke_oauth_token" then [ConfigType.OAUTH_TOKENS]
  else []

/-- `remediation.py` lines 75-82: the failure response returned when the
GAM command invocation reports failure. Only the explicitly passed fields
are set; the rest keep their pydantic defaults (`None` / `False`). -/
def remediationFailureResponse (req : RemediationRequest) (g : GamResult) :
    RemediationResponse :=
  { success := false
    message := "Remediation failed: " ++ pyShowOptStr g.error
    finding_id := req.finding_id
    action_executed := req.action_id
    gam_output := g.error
    finding_resolved := false }

/-- `remediation.py` lines 148-158: the success response, shared by the
rescan and no-rescan paths via the `new_config_id` / `score_after` /
`finding_resolved` variables initialized at lines 85-87. -/
def remediationSuccessResponse (req : RemediationRequest) (g : GamResult)
    (score_before : Int) (new_config_id : Option Nat)
    (score_after : Option Int) (finding_resolved : Bool) :
    RemediationResponse :=
  { success := true
    message := "Remediation executed successfully" ++
      (if finding_resolved then " and verified" else "")
    finding_id := req.finding_id
    action_executed := req.action_id
    gam_output := g.data
    new_configuration_id := new_config_id
    security_score_before := some score_before
    security_score_after := score_after
    finding_resolved := finding_resolved }

/-- `remediation.py` lines 74-158: the continuation of the remediation
handler after the GAM command has been invoked (`cmd` is the argument list
that was passed to the Command Runner, `gam_result` its result). -/
def afterGamResult (extractAll : List ConfigType → ExtractionResult)
    (analyze : List (String × Payload) → ConfigType → List FindingDraft)
    (score : List String → Int) (nextId : Nat)
    (req : RemediationRequest) (config : Configuration)
    (finding : SecurityAnalysis) (score_before : Int)
    (cmd : List String) (gam_result : GamResult) : ExecResult :=
  if !gam_result.success then
    { outcome := .response (remediationFailureResponse req gam_result)
      gamCalls := [cmd], savedConfigs := [], savedFindings := [] }
  else
    let config_types_to_extract := rescanTypes req.action_id
    if req.auto_rescan && !config_types_to_extract.isEmpty then
      let extract_result := extractAll config_types_to_extract
      if extract_result.success then
        let new_config : Configuration :=
          { id := nextId
            name := "Post-Remediation: " ++ config.name
            description := "Re-extracted after fixing: " ++ finding.title
            config_type := singleOrOther config_types_to_extract
            config_data := extract_result.data
            is_template := false }
        let new_findings := analyze new_config.config_data new_config.config_type
        let rows := new_findings.map (fun f =>
          ({ configuration_id := nextId
             severity := f.severity
             category := f.category
             title := f.title
             description := f.description
             recommendation := f.recommendation
             affected_settings := f.affected_settings
             remediation_steps := f.remediation_steps } : SecurityAnalysis))
        let score_after := score (new_findings.map (fun f => f.severity))
        let finding_resolved := !(new_findings.any (fun f =>
          f.title == finding.title &&
          f.affected_settings == finding.affected_settings))
        { outcome := .response (remediationSuccessResponse req gam_result
            score_before (some nextId) (some score_after) finding_resolved)
          gamCalls := [cmd], savedConfigs := [new_config], savedFindings := rows }
      else
        { outcome := .response (remediationSuccessResponse req gam_result
            score_before none none false)
          gamCalls := [cmd], savedConfigs := [], savedFindings := [] }
    else
      { outcome := .response (remediationSuccessResponse req gam_result
          score_before none none false)
        gamCalls := [cmd], savedConfigs := [], savedFindings := [] }

/-- An `ExecResult` for the paths that terminate before any GAM command is
run: no invocation, no persistence. -/
def abortResult (o : RemediationOutcome) : ExecResult :=
  { outcome := o, gamCalls := [], savedConfigs := [], savedFindings := [] }

/-- `remediation.py` `execute_remediation`: look up the finding and its
configuration (404 on absence), compute the baseline score, dispatch on
`action_id` (400 on unknown action or missing/falsy required parameter;
uncaught `AttributeError` when `parameters` is `None`), invoke the Command
Runner, and on success optionally rescan, persist and re-analyze. -/
def execute_remediation (db : DB) (gamRun : List String → GamResult)
    (extractAll : List ConfigType → ExtractionResult)
    (analyze : List (String × Payload) → ConfigType → List FindingDraft)
    (score : List String → Int) (nextId : Nat)
    (req : RemediationRequest) : ExecResult :=
  match db.findings.find? (fun f => f.id == req.finding_id) with
  | none => abortResult (.httpError 404 "Security finding not found")
  | some finding =>
    match db.configs.find? (fun c => c.id == finding.configuration_id) with
    | none => abortResult (.httpError 404 "Configuration not found")
    | some config =>
      let analyses_before := db.findings.filter
        (fun a => a.configuration_id == finding.configuration_id)
      let score_before := score (analyses_before.map (fun a => a.severity))
      if req.action_id == "enforce_2fa" then
        match req.parameters with
        | none => abortResult (.pyError "AttributeError: NoneType has no attribute get")
        | some params =>
          let user_email := dictGet params "user_email"
          if !(pyTruthy user_email) then
            abortResult (.httpError 400 "user_email parameter required")
          else
            let cmd := ["update", "user", user_email.getD "", "enforcein2sv", "true"]
            afterGamResult extractAll analyze score nextId req config finding
              score_before cmd (gamRun cmd)
      else if req.action_id == "revoke_oauth_token" then
        match req.parameters with
        | none => abortResult (.pyError "AttributeError: NoneType has no attribute get")
        | some params =>
          let user := dictGet params "user"
          let client_id := dictGet params "client_id"
          if !(pyTruthy user) || !(pyTruthy client_id) then
            abortResult (.httpError 400 "user and client_id parameters required")
          else
            let cmd := ["user", user.getD "", "revoke", "token", client_id.getD ""]
            afterGamResult extractAll analyze score nextId req config finding
              score_before cmd (gamRun cmd)
      else
        abortResult (.httpError 400 ("Unknown action_id: " ++ req.action_id))

/-- `gam.py` `extract_gam_config`, from the point where the extraction
result is in hand (lines 24-90): 500 on total failure, otherwise compute
`total_items` and `failed_types`, persist the Configuration and the
findings of the automatic analysis, and return the response body. -/
def extract_gam_config_core
    (analyze : List (String × Payload) → ConfigType → List FindingDraft)
    (nextId : Nat) (req : GAMExtractRequest) (result : ExtractionResult) :
    ExtractExecResult :=
  let errors := result.errors
  if !result.success && result.data.isEmpty then
    { outcome := .httpError 500 ("Failed to extract configurations: " ++ showErrors errors)
      savedConfigs := [], savedFindings := [] }
  else
    let total_items := item_count result.data
    let failed_types := req.config_types.filter
      (fun t => !((result.data.map Prod.fst).contains t.value))
    let config_name :=
      if req.save_as_template then pyShowOptStr req.template_name
      else "GAM Extract " ++ String.intercalate ", " (result.data.map Prod.fst)
    let db_config : Configuration :=
      { id := nextId
        name := config_name
        description := "Extracted from GAM - Types: " ++
          String.intercalate ", " (req.config_types.map ConfigType.value)
        config_type := singleOrOther req.config_types
        config_data := result.data
        is_template := req.save_as_template
        extraction_errors :=
          if errors.isEmpty then none
          else some { errors := errors
                      failed_types := failed_types.map ConfigType.value } }
    let findings := analyze db_config.config_data db_config.config_type
    let rows := findings.map (fun f =>
      ({ configuration_id := nextId
         severity := f.severity
         category := f.category
         title := f.title
         description := f.description
         recommendation := f.recommendation
         affected_settings := f.affected_settings
         remediation_steps := f.remediation_steps
         remediation_actions := f.remediation_actions } : SecurityAnalysis))
    { outcome := .response
        { success := true
          message :=
            if errors.isEmpty then "Configuration extracted successfully"
            else "Partially extracted (" ++ toString errors.length ++ " errors)"
          configuration_id := nextId
          extracted_types := req.config_types
          total_items := total_items
          errors := if errors.isEmpty then none else some errors
          failed_types := if failed_types.isEmpty then none else some failed_types }
      savedConfigs := [db_config], savedFindings := rows }

/-- `gam.py` `extract_gam_config`: run the (spec-modelled) scoped
extraction, then the handler body. -/
def extract_gam_config (runCat : ConfigType → Except String Payload)
    (analyze : List (String × Payload) → ConfigType → List FindingDraft)
    (nextId : Nat) (req : GAMExtractRequest) : ExtractExecResult :=
  extract_gam_config_core analyze nextId req
    (extract_all_configs runCat req.config_types)

/-- The validation/dispatch step of `execute_remediation` in isolation
(`remediation.py` lines 52-72): `some cmd` when the action is known and
its required parameters are present and truthy (`cmd` being the argument
list passed to the Command Runner), `none` when the handler aborts or
raises before invoking it. -/
def dispatchCmd (req : RemediationRequest) : Option (List String) :=
  if req.action_id == "enforce_2fa" then
    match req.parameters with
    | none => none
    | some params =>
      let user_email := dictGet params "user_email"
      if !(pyTruthy user_email) then none
      else some ["update", "user", user_email.getD "", "enforcein2sv", "true"]
  else if req.action_id == "revoke_oauth_token" then
    match req.parameters with
    | none => none
    | some params =>
      let user := dictGet params "user"
      let client_id := dictGet params "client_id"
      if !(pyTruthy user) || !(pyTruthy client_id) then none
      else some ["user", user.getD "", "revoke", "token", client_id.getD ""]
  else none

/-! Concrete fixtures used by the witness theorems. -/

/-- A stored finding: id 7, owned by configuration 3. -/
def wFinding : SecurityAnalysis :=
  { id := 7, configuration_id := 3, severity := "high", title := "No 2FA",
    affected_settings := some "a@x.com" }

/-- The owning configuration of `wFinding`. -/
def wConfig : Configuration :=
  { id := 3, name := "Base", description := "", config_type := .USER,
    config_data := [], is_template := false }

/-- A database holding exactly `wFinding` and `wConfig`. -/
def wDB : DB := { findings := [wFinding], configs := [wConfig] }

/-- A valid `enforce_2fa` request against finding 7. -/
def wReq2fa : RemediationRequest :=
  { finding_id := 7, action_id := "enforce_2fa",
    parameters := some [("user_email", "a@x.com")], auto_rescan := true }

/-- The command `wReq2fa` dispatches to. -/
def wCmd2fa : List String := ["update", "user", "a@x.com", "enforcein2sv", "true"]

/-- A request whose finding id is absent from `wDB`. -/
def wReqMissingFinding : RemediationRequest :=
  { finding_id := 99, action_id := "enforce_2fa",
    parameters := some [("user_email", "a@x.com")], auto_rescan := true }

/-- A request with an unknown action id. -/
def wReqUnknown : RemediationRequest :=
  { finding_id := 7, action_id := "frobnicate",
    parameters := some [], auto_rescan := true }

/-- A known-action request whose `parameters` field was omitted. -/
def wReqNoParams : RemediationRequest :=
  { finding_id := 7, action_id := "enforce_2fa",
    parameters := none, auto_rescan := true }

/-- An `enforce_2fa` request lacking `user_email`. -/
def wReq2faMissing : RemediationRequest :=
  { finding_id := 7, action_id := "enforce_2fa",
    parameters := some [], auto_rescan := true }

/-- A `revoke_oauth_token` request lacking `client_id`. -/
def wReqRevokeMissing : RemediationRequest :=
  { finding_id := 7, action_id := "revoke_oauth_token",
    parameters := some [("user", "a@x.com")], auto_rescan := true }

/-- A Command Runner that always fails. -/
def wGamFail : List String → GamResult :=
  fun _ => { success := false, error := some "boom" }

/-- A Command Runner that always succeeds. -/
def wGamOk : List String → GamResult :=
  fun _ => { success := true, data := some "done" }

/-- A scoped extraction that always fails totally. -/
def wExtractFail : List ConfigType → ExtractionResult :=
  fun _ => { success := false, data := [], errors := [⟨"user", "unreachable"⟩] }

/-- A scoped extraction that succeeds with a one-user payload. -/
def wExtractOk : List ConfigType → ExtractionResult :=
  fun _ => { success := true, data := [("user", .plist [.pstr "u1"])], errors := [] }

/-- An analyzer producing no findings. -/
def wAnalyzeEmpty : List (String × Payload) → ConfigType → List FindingDraft :=
  fun _ _ => []

/-- A score function: 100 minus the number of findings. -/
def wScore : List String → Int := fun l => 100 - l.length

/-- An extract request for the single USER category. -/
def wExReq : GAMExtractRequest := { config_types := [.USER] }

/-- An extract request for two categories. -/
def wExReq2 : GAMExtractRequest := { config_types := [.USER, .OAUTH_TOKENS] }

/-- A totally failed extraction result. -/
def wExResultFail : ExtractionResult :=
  { success := false, data := [], errors := [⟨"user", "boom"⟩] }

/-- A fully successful extraction result for USER. -/
def wExResultOk : ExtractionResult :=
  { success := true, data := [("user", .plist [.pint 1])], errors := [] }

/-- A per-category runner where only USER succeeds. -/
def wRunCat : ConfigType → Except String Payload :=
  fun c => match c with
  | .USER => .ok (.pstr "u")
  | _ => .error "fail"

/-- The `success` flag of the response body, when the extract endpoint
returned one (rather than raising). -/
def ExtractOutcome.responseSuccess : ExtractOutcome → Option Bool
  | .response r => some r.success
  | .httpError _ _ => none

/-- The `failed_types` field of the response body, when the extract
endpoint returned one. -/
def ExtractOutcome.responseFailedTypes :
    ExtractOutcome → Option (Option (List ConfigType))
  | .response r => some r.failed_types
  | .httpError _ _ => none

/-- The Configuration row persisted by
`extract_gam_config_core wAnalyzeEmpty 1 wExReq wExResultOk`. -/
def wSavedCfg : Configuration :=
  { id := 1
    name := "GAM Extract user"
    description := "Extracted from GAM - Types: user"
    config_type := ConfigType.USER
    config_data := [("user", .plist [.pint 1])]
    is_template := false
    extraction_errors := none }

/-- The Configuration row persisted by the post-remediation rescan of
`execute_remediation wDB wGamOk wExtractOk wAnalyzeEmpty wScore 42 wReq2fa`. -/
def wSavedCfg2 : Configuration :=
  { id := 42
    name := "Post-Remediation: Base"
    description := "Re-extracted after fixing: No 2FA"
    config_type := ConfigType.USER
    config_data := [("user", .plist [.pstr "u1"])]
    is_template := false
    extraction_errors := none }

/-! Helper lemmas shared by the claim theorems. -/

theorem dispatchCmd_action {req : RemediationRequest} {cmd : List String}
    (hd : dispatchCmd req = some cmd) :
    req.action_id = "enforce_2fa" ∨ req.action_id = "revoke_oauth_token" := by
  by_cases h1 : req.action_id = "enforce_2fa"
  · exact Or.inl h1
  · by_cases h2 : req.action_id = "revoke_oauth_token"
    · exact Or.inr h2
    · simp [dispatchCmd, h1, h2] at hd

theorem execute_dispatch (db : DB) (gamRun : List String → GamResult)
    (extractAll : List ConfigType → ExtractionResult)
    (analyze : List (String × Payload) → ConfigType → List FindingDraft)
    (score : List String → Int) (nextId : Nat) (req : RemediationRequest)
    {finding : SecurityAnalysis} {config : Configuration} {cmd : List String}
    (hF : db.findings.find? (fun f => f.id == req.finding_id) = some finding)
    (hC : db.configs.find? (fun c => c.id == finding.configuration_id) = some config)
    (hd : dispatchCmd req = some cmd) :
    execute_remediation db gamRun extractAll analyze score nextId req =
      afterGamResult extractAll analyze score nextId req config finding
        (score ((db.findings.filter
          (fun a => a.configuration_id == finding.configuration_id)).map
          (fun a => a.severity))) cmd (gamRun cmd) := by
  rcases dispatchCmd_action hd with h1 | h1
  · cases hp : req.parameters with
    | none => simp [dispatchCmd, h1, hp] at hd
    | some params =>
      cases ht : pyTruthy (dictGet params "user_email") with
      | false => simp [dispatchCmd, h1, hp, ht] at hd
      | true =>
        have hcmd : ["update", "user", (dictGet params "user_email").getD "",
            "enforcein2sv", "true"] = cmd := by
          simp [dispatchCmd, h1, hp, ht] at hd
          exact hd
        subst hcmd
        simp [execute_remediation, hF, hC, h1, hp, ht]
  · cases hp : req.parameters with
    | none => simp [dispatchCmd, h1, hp] at hd
    | some params =>
      cases ht : (!(pyTruthy (dictGet params "user")) ||
          !(pyTruthy (dictGet params "client_id"))) with
      | true => simp [dispatchCmd, h1, hp, ht] at hd
      | false =>
        have hcmd : ["user", (dictGet params "user").getD "", "revoke", "token",
            (dictGet params "client_id").getD ""] = cmd := by
          simp [dispatchCmd, h1, hp, ht] at hd
          exact hd
        subst hcmd
        simp [execute_remediation, hF, hC, h1, hp, ht]

/-- C1: for a remediation request that passes lookup and validation, if the
GAM command invocation fails, `execute_remediation` immediately returns
success=false with the failure message and performs no rescan: no new
Configuration (and no findings) are persisted, `new_configuration_id` and
`security_score_after` are null and `finding_resolved` is false, for every
value of `auto_rescan`. -/
theorem spec_C1 (db : DB) (gamRun : List String → GamResult)
    (extractAll : List ConfigType → ExtractionResult)
    (analyze : List (String × Payload) → ConfigType → List FindingDraft)
    (score : List String → Int) (nextId : Nat) (req : RemediationRequest)
    (finding : SecurityAnalysis) (config : Configuration) (cmd : List String)
    (hF : db.findings.find? (fun f => f.id == req.finding_id) = some finding)
    (hC : db.configs.find? (fun c => c.id == finding.configuration_id) = some config)
    (hd : dispatchCmd req = some cmd)
    (hGam : (gamRun cmd).success = false) :
    execute_remediation db gamRun extractAll analyze score nextId req =
      { outcome := .response
          { success := false
            message := "Remediation failed: " ++ pyShowOptStr (gamRun cmd).error
            finding_id := req.finding_id
            action_executed := req.action_id
            gam_output := (gamRun cmd).error
            new_configuration_id := none
            security_score_before := none
            security_score_after := none
            finding_resolved := false }
        gamCalls := [cmd]
        savedConfigs := []
        savedFindings := [] } := by
  rw [execute_dispatch db gamRun extractAll analyze score nextId req hF hC hd]
  simp [afterGamResult, hGam, remediationFailureResponse]

/-- Witness for C1: finding 7 in `wDB`, a valid `enforce_2fa` request with
`auto_rescan` on, and a failing Command Runner. -/
theorem spec_C1_witness :
    execute_remediation wDB wGamFail wExtractOk wAnalyzeEmpty wScore 42 wReq2fa =
      { outcome := .response
          { success := false
            message := "Remediation failed: boom"
            finding_id := 7
            action_executed := "enforce_2fa"
            gam_output := some "boom"
            new_configuration_id := none
            security_score_before := none
            security_score_after := none
            finding_resolved := false }
        gamCalls := [wCmd2fa]
        savedConfigs := []
        savedFindings := [] } :=
  spec_C1 wDB wGamFail wExtractOk wAnalyzeEmpty wScore 42 wReq2fa
    wFinding wConfig wCmd2fa rfl rfl rfl rfl

/-- C2: a missing finding (NotFound, 404) or an unknown action id
(InvalidAction, 400) aborts `execute_remediation` before the Command
Runner is ever invoked: no GAM call and no persistence happen on those
paths, and an unknown action id never leads to a GAM call at all. -/
theorem spec_C2 (db : DB) (gamRun : List String → GamResult)
    (extractAll : List ConfigType → ExtractionResult)
    (analyze : List (String × Payload) → ConfigType → List FindingDraft)
    (score : List String → Int) (nextId : Nat) (req : RemediationRequest) :
    (db.findings.find? (fun f => f.id == req.finding_id) = none →
      execute_remediation db gamRun extractAll analyze score nextId req =
        { outcome := .httpError 404 "Security finding not found"
          gamCalls := [], savedConfigs := [], savedFindings := [] })
    ∧ (∀ finding config,
        db.findings.find? (fun f => f.id == req.finding_id) = some finding →
        db.configs.find? (fun c => c.id == finding.configuration_id) = some config →
        req.action_id ≠ "enforce_2fa" → req.action_id ≠ "revoke_oauth_token" →
        execute_remediation db gamRun extractAll analyze score nextId req =
          { outcome := .httpError 400 ("Unknown action_id: " ++ req.action_id)
            gamCalls := [], savedConfigs := [], savedFindings := [] })
    ∧ (req.action_id ≠ "enforce_2fa" → req.action_id ≠ "revoke_oauth_token" →
        (execute_remediation db gamRun extractAll analyze score nextId req).gamCalls = []) := by
  refine ⟨fun hF => ?_, fun finding config hF hC h1 h2 => ?_, fun h1 h2 => ?_⟩
  · simp [execute_remediation, hF, abortResult]
  · simp [execute_remediation, hF, hC, h1, h2, abortResult]
  · unfold execute_remediation
    cases hF : db.findings.find? (fun f => f.id == req.finding_id) with
    | none => simp [abortResult]
    | some finding =>
      cases hC : db.configs.find? (fun c => c.id == finding.configuration_id) with
      | none => simp [hC, abortResult]
      | some config => simp [hC, h1, h2, abortResult]

/-- Witness for C2: in `wDB`, finding id 99 is absent (404 path) and the
action id of `wReqUnknown` is unknown (400 path); neither run performs a
GAM call. -/
theorem spec_C2_witness :
    (execute_remediation wDB wGamOk wExtractOk wAnalyzeEmpty wScore 42 wReqMissingFinding =
      { outcome := .httpError 404 "Security finding not found"
        gamCalls := [], savedConfigs := [], savedFindings := [] })
    ∧ (execute_remediation wDB wGamOk wExtractOk wAnalyzeEmpty wScore 42 wReqUnknown =
      { outcome := .httpError 400 "Unknown action_id: frobnicate"
        gamCalls := [], savedConfigs := [], savedFindings := [] }) :=
  ⟨(spec_C2 wDB wGamOk wExtractOk wAnalyzeEmpty wScore 42 wReqMissingFinding).1 rfl,
   (spec_C2 wDB wGamOk wExtractOk wAnalyzeEmpty wScore 42 wReqUnknown).2.1
     wFinding wConfig rfl rfl (by decide) (by decide)⟩

/-- C6: for a known action whose parameters dictionary lacks a required
key (`user_email` for enforce_2fa; `user` or `client_id` for
revoke_oauth_token), `execute_remediation` returns the 400 MissingParameter
error and the Command Runner is never invoked. -/
theorem spec_C6 (db : DB) (gamRun : List String → GamResult)
    (extractAll : List ConfigType → ExtractionResult)
    (analyze : List (String × Payload) → ConfigType → List FindingDraft)
    (score : List String → Int) (nextId : Nat) (req : RemediationRequest)
    (finding : SecurityAnalysis) (config : Configuration)
    (params : List (String × String))
    (hF : db.findings.find? (fun f => f.id == req.finding_id) = some finding)
    (hC : db.configs.find? (fun c => c.id == finding.configuration_id) = some config)
    (hp : req.parameters = some params) :
    (req.action_id = "enforce_2fa" → dictGet params "user_email" = none →
      execute_remediation db gamRun extractAll analyze score nextId req =
        { outcome := .httpError 400 "user_email parameter required"
          gamCalls := [], savedConfigs := [], savedFindings := [] })
    ∧ (req.action_id = "revoke_oauth_token" →
        (dictGet params "user" = none ∨ dictGet params "client_id" = none) →
        execute_remediation db gamRun extractAll analyze score nextId req =
          { outcome := .httpError 400 "user and client_id parameters required"
            gamCalls := [], savedConfigs := [], savedFindings := [] }) := by
  constructor
  · intro h1 hmiss
    simp [execute_remediation, hF, hC, h1, hp, hmiss, pyTruthy, abortResult]
  · intro h1 hmiss
    rcases hmiss with hm | hm <;>
      simp [execute_remediation, hF, hC, h1, hp, hm, pyTruthy, abortResult]

/-- Witness for C6: an `enforce_2fa` request with an empty parameters
dictionary and a `revoke_oauth_token` request lacking `client_id`. -/
theorem spec_C6_witness :
    (execute_remediation wDB wGamOk wExtractOk wAnalyzeEmpty wScore 42 wReq2faMissing =
      { outcome := .httpError 400 "user_email parameter required"
        gamCalls := [], savedConfigs := [], savedFindings := [] })
    ∧ (execute_remediation wDB wGamOk wExtractOk wAnalyzeEmpty wScore 42 wReqRevokeMissing =
      { outcome := .httpError 400 "user and client_id parameters required"
        gamCalls := [], savedConfigs := [], savedFindings := [] }) :=
  ⟨(spec_C6 wDB wGamOk wExtractOk wAnalyzeEmpty wScore 42 wReq2faMissing
      wFinding wConfig [] rfl rfl rfl).1 rfl rfl,
   (spec_C6 wDB wGamOk wExtractOk wAnalyzeEmpty wScore 42 wReqRevokeMissing
      wFinding wConfig [("user", "a@x.com")] rfl rfl rfl).2 rfl (Or.inr rfl)⟩

/-- C9: for a known action with `parameters` omitted (schema default
`None`), the handler's attribute access on `None` raises an uncaught
exception instead of producing the 400 MissingParameter response, and the
Command Runner is not invoked. -/
theorem spec_C9 (db : DB) (gamRun : List String → GamResult)
    (extractAll : List ConfigType → ExtractionResult)
    (analyze : List (String × Payload) → ConfigType → List FindingDraft)
    (score : List String → Int) (nextId : Nat) (req : RemediationRequest)
    (finding : SecurityAnalysis) (config : Configuration)
    (hF : db.findings.find? (fun f => f.id == req.finding_id) = some finding)
    (hC : db.configs.find? (fun c => c.id == finding.configuration_id) = some config)
    (hp : req.parameters = none)
    (hA : req.action_id = "enforce_2fa" ∨ req.action_id = "revoke_oauth_token") :
    execute_remediation db gamRun extractAll analyze score nextId req =
      { outcome := .pyError "AttributeError: NoneType has no attribute get"
        gamCalls := [], savedConfigs := [], savedFindings := [] } := by
  rcases hA with h1 | h1 <;>
    simp [execute_remediation, hF, hC, h1, hp, abortResult]

/-- Witness for C9: an `enforce_2fa` request with no parameters field. -/
theorem spec_C9_witness :
    execute_remediation wDB wGamOk wExtractOk wAnalyzeEmpty wScore 42 wReqNoParams =
      { outcome := .pyError "AttributeError: NoneType has no attribute get"
        gamCalls := [], savedConfigs := [], savedFindings := [] } :=
  spec_C9 wDB wGamOk wExtractOk wAnalyzeEmpty wScore 42 wReqNoParams
    wFinding wConfig rfl rfl rfl (Or.inl rfl)

/-- C3: when `auto_rescan` is on, the GAM command succeeded and the scoped
re-extraction succeeded, `finding_resolved` is true iff no finding in the
newly analyzed set carries both the original finding's title and its
affected_settings (exact match on the pair). -/
theorem spec_C3 (db : DB) (gamRun : List String → GamResult)
    (extractAll : List ConfigType → ExtractionResult)
    (analyze : List (String × Payload) → ConfigType → List FindingDraft)
    (score : List String → Int) (nextId : Nat) (req : RemediationRequest)
    (finding : SecurityAnalysis) (config : Configuration) (cmd : List String)
    (hF : db.findings.find? (fun f => f.id == req.finding_id) = some finding)
    (hC : db.configs.find? (fun c => c.id == finding.configuration_id) = some config)
    (hd : dispatchCmd req = some cmd)
    (hGam : (gamRun cmd).success = true)
    (hRescan : req.auto_rescan = true)
    (hE : (extractAll (rescanTypes req.action_id)).success = true) :
    ∀ r, (execute_remediation db gamRun extractAll analyze score nextId req).outcome =
        .response r →
      (r.finding_resolved = true ↔
        ¬ ∃ f ∈ analyze (extractAll (rescanTypes req.action_id)).data
            (singleOrOther (rescanTypes req.action_id)),
          f.title = finding.title ∧
          f.affected_settings = finding.affected_settings) := by
  rw [execute_dispatch db gamRun extractAll analyze score nextId req hF hC hd]
  intro r hr
  rcases dispatchCmd_action hd with h1 | h1
  · rw [h1] at hE ⊢
    have hT : rescanTypes "enforce_2fa" = [ConfigType.USER] := rfl
    rw [hT] at hE ⊢
    simp only [afterGamResult, hGam, hRescan, h1, hT, hE,
      remediationSuccessResponse] at hr
    simp only [Bool.not_true, Bool.false_eq_true, if_false, reduceIte,
      List.isEmpty_cons, Bool.not_false, Bool.and_self, if_true,
      RemediationOutcome.response.injEq] at hr
    subst hr
    simp [List.any_eq_true, not_exists]
  · rw [h1] at hE ⊢
    have hT : rescanTypes "revoke_oauth_token" = [ConfigType.OAUTH_TOKENS] := rfl
    rw [hT] at hE ⊢
    simp only [afterGamResult, hGam, hRescan, h1, hT, hE,
      remediationSuccessResponse] at hr
    simp only [Bool.not_true, Bool.false_eq_true, if_false, reduceIte,
      List.isEmpty_cons, Bool.not_false, Bool.and_self, if_true,
      RemediationOutcome.response.injEq] at hr
    subst hr
    simp [List.any_eq_true, not_exists]

/-- Witness for C3: successful command and rescan with an analyzer that
reports no findings, so the original finding counts as resolved. -/
theorem spec_C3_witness :
    (({ success := true
        message := "Remediation executed successfully and verified"
        finding_id := 7
        action_executed := "enforce_2fa"
        gam_output := some "done"
        new_configuration_id := some 42
        security_score_before := some 99
        security_score_after := some 100
        finding_resolved := true } : RemediationResponse).finding_resolved = true ↔
      ¬ ∃ f ∈ wAnalyzeEmpty (wExtractOk (rescanTypes "enforce_2fa")).data
          (singleOrOther (rescanTypes "enforce_2fa")),
        f.title = wFinding.title ∧
        f.affected_settings = wFinding.affected_settings) :=
  spec_C3 wDB wGamOk wExtractOk wAnalyzeEmpty wScore 42 wReq2fa
    wFinding wConfig wCmd2fa rfl rfl rfl rfl rfl rfl _ rfl

/-- C10: when `auto_rescan` is on, the GAM command succeeded and the
follow-up scoped extraction reports failure, the handler still returns
success=true with the plain success message; `new_configuration_id` and
`security_score_after` stay null, `finding_resolved` stays false, nothing
is persisted, and the rescan failure is not surfaced in the outcome. -/
theorem spec_C10 (db : DB) (gamRun : List String → GamResult)
    (extractAll : List ConfigType → ExtractionResult)
    (analyze : List (String × Payload) → ConfigType → List FindingDraft)
    (score : List String → Int) (nextId : Nat) (req : RemediationRequest)
    (finding : SecurityAnalysis) (config : Configuration) (cmd : List String)
    (hF : db.findings.find? (fun f => f.id == req.finding_id) = some finding)
    (hC : db.configs.find? (fun c => c.id == finding.configuration_id) = some config)
    (hd : dispatchCmd req = some cmd)
    (hGam : (gamRun cmd).success = true)
    (hRescan : req.auto_rescan = true)
    (hE : (extractAll (rescanTypes req.action_id)).success = false) :
    execute_remediation db gamRun extractAll analyze score nextId req =
      { outcome := .response
          { success := true
            message := "Remediation executed successfully"
            finding_id := req.finding_id
            action_executed := req.action_id
            gam_output := (gamRun cmd).data
            new_configuration_id := none
            security_score_before := some (score ((db.findings.filter
              (fun a => a.configuration_id == finding.configuration_id)).map
              (fun a => a.severity)))
            security_score_after := none
            finding_resolved := false }
        gamCalls := [cmd]
        savedConfigs := []
        savedFindings := [] } := by
  rw [execute_dispatch db gamRun extractAll analyze score nextId req hF hC hd]
  rcases dispatchCmd_action hd with h1 | h1
  · rw [h1] at hE ⊢
    have hT : rescanTypes "enforce_2fa" = [ConfigType.USER] := rfl
    rw [hT] at hE
    simp [afterGamResult, hGam, hRescan, h1, hT, hE, remediationSuccessResponse]
  · rw [h1] at hE ⊢
    have hT : rescanTypes "revoke_oauth_token" = [ConfigType.OAUTH_TOKENS] := rfl
    rw [hT] at hE
    simp [afterGamResult, hGam, hRescan, h1, hT, hE, remediationSuccessResponse]

/-- Witness for C10: successful command, failing rescan extraction. -/
theorem spec_C10_witness :
    execute_remediation wDB wGamOk wExtractFail wAnalyzeEmpty wScore 42 wReq2fa =
      { outcome := .response
          { success := true
            message := "Remediation executed successfully"
            finding_id := 7
            action_executed := "enforce_2fa"
            gam_output := some "done"
            new_configuration_id := none
            security_score_before := some 99
            security_score_after := none
            finding_resolved := false }
        gamCalls := [wCmd2fa]
        savedConfigs := []
        savedFindings := [] } :=
  spec_C10 wDB wGamOk wExtractFail wAnalyzeEmpty wScore 42 wReq2fa
    wFinding wConfig wCmd2fa rfl rfl rfl rfl rfl rfl

/-- C4: when the extraction result reports success=false with an empty
data mapping (every requested category failed), the extract endpoint
raises the 500 error whose detail carries the collected errors, and
persists no Configuration and no findings. -/
theorem spec_C4
    (analyze : List (String × Payload) → ConfigType → List FindingDraft)
    (nextId : Nat) (req : GAMExtractRequest) (result : ExtractionResult)
    (hS : result.success = false) (hD : result.data = []) :
    extract_gam_config_core analyze nextId req result =
      { outcome := .httpError 500
          ("Failed to extract configurations: " ++ showErrors result.errors)
        savedConfigs := []
        savedFindings := [] } := by
  simp [extract_gam_config_core, hS, hD]

/-- Witness for C4: a totally failed extraction result. -/
theorem spec_C4_witness :
    extract_gam_config_core wAnalyzeEmpty 1 wExReq wExResultFail =
      { outcome := .httpError 500 "Failed to extract configurations: user: boom"
        savedConfigs := []
        savedFindings := [] } :=
  spec_C4 wAnalyzeEmpty 1 wExReq wExResultFail rfl rfl

theorem extractStep_foldl_ne_nil (runCat : ConfigType → Except String Payload)
    (cats : List ConfigType) (acc : List (String × Payload) × List ErrorRecord)
    (h : (∃ c ∈ cats, ∃ p, runCat c = .ok p) ∨ acc.1 ≠ []) :
    (cats.foldl (extractStep runCat) acc).1 ≠ [] := by
  induction cats generalizing acc with
  | nil =>
    rcases h with h | h
    · simp at h
    · simpa using h
  | cons c cs ih =>
    rw [List.foldl_cons]
    apply ih
    cases hc : runCat c with
    | ok p =>
      right
      simp [extractStep, hc]
    | error e =>
      rcases h with ⟨c2, hmem, p, hp⟩ | h
      · rcases List.mem_cons.mp hmem with heq | hmem2
        · subst heq; rw [hp] at hc; cases hc
        · exact Or.inl ⟨c2, hmem2, p, hp⟩
      · right
        simpa [extractStep, hc] using h

theorem extract_all_configs_success (runCat : ConfigType → Except String Payload)
    (cats : List ConfigType) (h : ∃ c ∈ cats, ∃ p, runCat c = .ok p) :
    (extract_all_configs runCat cats).success = true := by
  have haux := extractStep_foldl_ne_nil runCat cats ([], []) (Or.inl h)
  unfold extract_all_configs
  simpa using haux

/-- C5: when at least one requested category succeeds, the extract
endpoint returns a response (no 500) with success=true, and its
`failed_types` field is exactly the requested categories whose value key
is absent from the extracted data mapping — reported as null when that
difference is empty. -/
theorem spec_C5 (runCat : ConfigType → Except String Payload)
    (analyze : List (String × Payload) → ConfigType → List FindingDraft)
    (nextId : Nat) (req : GAMExtractRequest)
    (h : ∃ c ∈ req.config_types, ∃ p, runCat c = .ok p) :
    (extract_gam_config runCat analyze nextId req).outcome.responseSuccess =
      some true
    ∧ (extract_gam_config runCat analyze nextId req).outcome.responseFailedTypes =
      some (
        let fl := req.config_types.filter (fun t =>
          !(((extract_all_configs runCat req.config_types).data.map Prod.fst).contains
            t.value))
        if fl.isEmpty then none else some fl) := by
  have hs := extract_all_configs_success runCat req.config_types h
  unfold extract_gam_config extract_gam_config_core
  rw [hs]
  simp [ExtractOutcome.responseSuccess, ExtractOutcome.responseFailedTypes]

/-- Witness for C5: two requested categories of which only USER succeeds;
`failed_types` reports the OAUTH_TOKENS category. -/
theorem spec_C5_witness :
    (extract_gam_config wRunCat wAnalyzeEmpty 1 wExReq2).outcome.responseSuccess =
      some true
    ∧ (extract_gam_config wRunCat wAnalyzeEmpty 1 wExReq2).outcome.responseFailedTypes =
      some (
        let fl := wExReq2.config_types.filter (fun t =>
          !(((extract_all_configs wRunCat wExReq2.config_types).data.map Prod.fst).contains
            t.value))
        if fl.isEmpty then none else some fl) :=
  spec_C5 wRunCat wAnalyzeEmpty 1 wExReq2
    ⟨ConfigType.USER, List.mem_cons_self _ _, Payload.pstr "u", rfl⟩

/-- C7: the `total_items` value of every extract response equals the sum,
over the category payloads, of the payload's length when it is a list and
1 otherwise; in particular the mapping A ↦ [1,2,3], B ↦ "x" counts 4, an
empty list contributes 0, and an empty mapping counts 0. -/
theorem spec_C7 :
    (∀ (analyze : List (String × Payload) → ConfigType → List FindingDraft)
       (nextId : Nat) (req : GAMExtractRequest) (result : ExtractionResult)
       (r : GAMExtractResponse),
      (extract_gam_config_core analyze nextId req result).outcome = .response r →
      r.total_items = item_count result.data)
    ∧ item_count [("A", .plist [.pint 1, .pint 2, .pint 3]), ("B", .pstr "x")] = 4
    ∧ item_count [("A", .plist [])] = 0
    ∧ item_count ([] : List (String × Payload)) = 0 := by
  refine ⟨?_, rfl, rfl, rfl⟩
  intro analyze nextId req result r h
  unfold extract_gam_config_core at h
  split at h
  · exact ExtractOutcome.noConfusion h
  · rw [ExtractOutcome.response.injEq] at h
    subst h
    rfl

/-- Witness for C7: the response of a successful single-category run
reports `total_items = item_count` of its data. -/
theorem spec_C7_witness :
    ({ success := true
       message := "Configuration extracted successfully"
       configuration_id := 1
       extracted_types := [ConfigType.USER]
       total_items := 1
       errors := none
       failed_types := none } : GAMExtractResponse).total_items =
      item_count wExResultOk.data :=
  spec_C7.1 wAnalyzeEmpty 1 wExReq wExResultOk _ rfl

theorem afterGam_config_type (extractAll : List ConfigType → ExtractionResult)
    (analyze : List (String × Payload) → ConfigType → List FindingDraft)
    (score : List String → Int) (nextId : Nat) (req : RemediationRequest)
    (config : Configuration) (finding : SecurityAnalysis) (sb : Int)
    (cmd : List String) (g : GamResult) :
    ∀ cfg ∈ (afterGamResult extractAll analyze score nextId req config finding
        sb cmd g).savedConfigs,
      cfg.config_type = singleOrOther (rescanTypes req.action_id) := by
  intro cfg hmem
  simp only [afterGamResult] at hmem
  split at hmem
  · simp at hmem
  · split at hmem
    · split at hmem
      · rw [List.mem_singleton] at hmem
        subst hmem
        rfl
      · simp at hmem
    · simp at hmem

/-- C8: every Configuration persisted by the extract endpoint carries
`config_type` equal to the single requested category when exactly one was
requested and OTHER otherwise, and every Configuration persisted by the
post-remediation rescan does the same with respect to the rescan
categories of the action. -/
theorem spec_C8 :
    (∀ c : ConfigType, singleOrOther [c] = c)
    ∧ (∀ l : List ConfigType, l.length ≠ 1 → singleOrOther l = ConfigType.OTHER)
    ∧ (∀ (analyze : List (String × Payload) → ConfigType → List FindingDraft)
         (nextId : Nat) (req : GAMExtractRequest) (result : ExtractionResult),
        ∀ cfg ∈ (extract_gam_config_core analyze nextId req result).savedConfigs,
          cfg.config_type = singleOrOther req.config_types)
    ∧ (∀ (db : DB) (gamRun : List String → GamResult)
         (extractAll : List ConfigType → ExtractionResult)
         (analyze : List (String × Payload) → ConfigType → List FindingDraft)
         (score : List String → Int) (nextId : Nat) (req : RemediationRequest),
        ∀ cfg ∈ (execute_remediation db gamRun extractAll analyze score
            nextId req).savedConfigs,
          cfg.config_type = singleOrOther (rescanTypes req.action_id)) := by
  refine ⟨fun c => rfl, ?_, ?_, ?_⟩
  · intro l hl
    match l with
    | [] => rfl
    | [c] => exact absurd rfl hl
    | a :: b :: t => rfl
  · intro analyze nextId req result cfg hmem
    unfold extract_gam_config_core at hmem
    split at hmem
    · simp at hmem
    · rw [List.mem_singleton] at hmem
      subst hmem
      rfl
  · intro db gamRun extractAll analyze score nextId req cfg hmem
    simp only [execute_remediation] at hmem
    split at hmem
    · simp [abortResult] at hmem
    · split at hmem
      · simp [abortResult] at hmem
      · split at hmem
        · split at hmem
          · simp [abortResult] at hmem
          · split at hmem
            · simp [abortResult] at hmem
            · exact afterGam_config_type _ _ _ _ _ _ _ _ _ _ cfg hmem
        · split at hmem
          · split at hmem
            · simp [abortResult] at hmem
            · split at hmem
              · simp [abortResult] at hmem
              · exact afterGam_config_type _ _ _ _ _ _ _ _ _ _ cfg hmem
          · simp [abortResult] at hmem

/-- Witness for C8 at concrete inputs: a single-category request yields a
USER-typed Configuration, an empty request list yields OTHER, and both the
extract endpoint and the rescan persistence follow the rule. -/
theorem spec_C8_witness :
    singleOrOther [ConfigType.USER] = ConfigType.USER
    ∧ singleOrOther [] = ConfigType.OTHER
    ∧ wSavedCfg.config_type = singleOrOther wExReq.config_types
    ∧ wSavedCfg2.config_type = singleOrOther (rescanTypes wReq2fa.action_id) :=
  ⟨spec_C8.1 ConfigType.USER,
   spec_C8.2.1 [] (by decide),
   spec_C8.2.2.1 wAnalyzeEmpty 1 wExReq wExResultOk wSavedCfg (List.Mem.head _),
   spec_C8.2.2.2 wDB wGamOk wExtractOk wAnalyzeEmpty wScore 42 wReq2fa wSavedCfg2
     (List.Mem.head _)⟩
